import Mathlib

/-
Verification of the novel-tree visual-novel engine (game-engine.js).

The engine walks a scenario graph node by node. Mutable session state lives
in the `GameState` class; transitions are driven by DOM event handlers on
the `NovelGameEngine` class. This file shallowly embeds the state-mutating
behaviour of those methods: DOM reads/writes, image paths and localStorage
access are presentation plumbing and carry no session state, so they are
dropped; everything that touches `this.state` is kept faithfully.

JavaScript failure modes are made explicit: an operation that would throw
a TypeError (dereferencing `undefined`/`null`) returns `Except.error
JsError.typeError`; every other path returns `Except.ok` with the new state.
-/

namespace NovelTree

/-- One entry of the `choices` array of a choice node: `{ text, next, flag }`. -/
structure Choice where
  text : String
  next : Option String
  flag : Option String
deriving Repr, DecidableEq

/-- A scenario node as read from scenario.json. `type` is a plain string in
the source (`story`, `dialogue` or `choice`); only `type == "choice"` (triple-equals in the source) is
ever tested by the engine. -/
structure Node where
  type : String
  speaker : Option String
  text : Option String
  background : Option String
  character : Option String
  next : Option String
  choices : List Choice
deriving Repr, DecidableEq

/-- The scenario document: `startNode` plus the `nodes` mapping, kept as an
association list from node id to node. -/
structure Scenario where
  title : String
  startNode : String
  nodes : List (String × Node)
deriving Repr, DecidableEq

/-- Property lookup `scenario.nodes[id]`: `undefined` becomes `none`. -/
def Scenario.lookupNode (sc : Scenario) (id : String) : Option Node :=
  (sc.nodes.find? (fun p => p.1 == id)).map (fun p => p.2)

/-- JavaScript truthiness of an optional string: `undefined`, `null` and the
empty string are falsy. -/
def jsTruthy : Option String → Bool
  | none => false
  | some s => s != ""

/-- The `GameState` class fields (the immutable-after-load `scenario` field
included, since the source stores it on the state object). -/
structure GameState where
  currentNodeId : Option String
  flags : List String
  visitedNodes : List String
  autoMode : Bool
  skipMode : Bool
  scenario : Option Scenario
deriving Repr, DecidableEq

/-- The `GameState` constructor. -/
def initGameState : GameState :=
  { currentNodeId := none
    flags := []
    visitedNodes := []
    autoMode := false
    skipMode := false
    scenario := none }

/-- Method `GameState.addFlag(flag)`: `if (flag && !this.flags.includes(flag))
this.flags.push(flag)`. -/
def GameState.addFlag (s : GameState) (flag : Option String) : GameState :=
  match flag with
  | none => s
  | some f =>
    if f != "" && !(s.flags.contains f) then
      { s with flags := s.flags ++ [f] }
    else s

/-- Method `GameState.visitNode(nodeId)`: append if not already visited. -/
def GameState.visitNode (s : GameState) (nodeId : String) : GameState :=
  if s.visitedNodes.contains nodeId then s
  else { s with visitedNodes := s.visitedNodes ++ [nodeId] }

/-- The save-slot payload produced by `toJSON` / consumed by `fromJSON`.
`flags` and `visitedNodes` are optional because `fromJSON` defends against
their absence with `|| []`. -/
structure SaveData where
  currentNodeId : Option String
  flags : Option (List String)
  visitedNodes : Option (List String)
  timestamp : String
deriving Repr, DecidableEq

/-- Method `GameState.toJSON()`: the wall-clock timestamp is an environment input,
passed in as a parameter. -/
def GameState.toJSON (s : GameState) (timestamp : String) : SaveData :=
  { currentNodeId := s.currentNodeId
    flags := some s.flags
    visitedNodes := some s.visitedNodes
    timestamp := timestamp }

/-- Method `GameState.fromJSON(data)`: overwrites exactly three fields; `|| []`
replaces an absent array with an empty one (an empty JS array is truthy, so
present-but-empty arrays are kept, matching `Option.getD`). -/
def GameState.fromJSON (s : GameState) (data : SaveData) : GameState :=
  { s with
    currentNodeId := data.currentNodeId
    flags := data.flags.getD []
    visitedNodes := data.visitedNodes.getD [] }

/-- A JavaScript runtime failure: the only way the embedded engine code can
fail is a TypeError from dereferencing `undefined` or `null`. The source
defines no error classes of its own. -/
inductive JsError
  | typeError
deriving Repr, DecidableEq

/-- Method `displayText(node)`: pure rendering for story/dialogue nodes; mutates no
session state. (Its auto/skip `setTimeout` schedules a later `moveToNode`,
modelled as a separate transition, not as part of this synchronous call.) -/
def GameState.displayText (s : GameState) (_node : Node) : GameState := s

/-- Method `displayChoice(node)`: clears auto and skip mode, then renders one
button per entry of `node.choices`. -/
def GameState.displayChoice (s : GameState) (_node : Node) : GameState :=
  { s with autoMode := false, skipMode := false }

/-- Method `displayCurrentNode()`: looks up the current node (`undefined` lookup
logs and returns), marks it visited, then dispatches on `node.type`.
Reading `scenario.nodes` with `scenario === null` throws a TypeError. -/
def GameState.displayCurrentNode (s : GameState) : Except JsError GameState :=
  match s.scenario with
  | none => .error .typeError
  | some sc =>
    match s.currentNodeId with
    | none => .ok s
    | some id =>
      match sc.lookupNode id with
      | none => .ok s
      | some node =>
        let s1 := s.visitNode id
        .ok (if node.type == "choice" then s1.displayChoice node
             else s1.displayText node)

/-- Method `moveToNode(nodeId)`: set `currentNodeId` and redisplay. The argument is
optional because `onChoiceSelected` passes `choice.next` unchecked. -/
def GameState.moveToNode (s : GameState) (nodeId : Option String) :
    Except JsError GameState :=
  GameState.displayCurrentNode { s with currentNodeId := nodeId }

/-- Method `startGame()`: refuses (alert, state unchanged) until the scenario is
loaded (`isReady` is set exactly when `scenario` is assigned), then jumps to
`scenario.startNode` and displays it. -/
def GameState.startGame (s : GameState) : Except JsError GameState :=
  match s.scenario with
  | none => .ok s
  | some sc => s.moveToNode (some sc.startNode)

/-- Handler `onTextBoxClick()` — the click-to-advance handler. Before `start()` the
lookup yields `undefined` and `node.type` throws a TypeError. A `choice`
node is ignored; a falsy `next` (absent or empty) means no transition. -/
def GameState.onTextBoxClick (s : GameState) : Except JsError GameState :=
  match s.scenario with
  | none => .error .typeError
  | some sc =>
    match s.currentNodeId with
    | none => .error .typeError
    | some id =>
      match sc.lookupNode id with
      | none => .error .typeError
      | some node =>
        if node.type == "choice" then .ok s
        else if jsTruthy node.next then s.moveToNode node.next
        else .ok s

/-- Handler `onChoiceSelected(choice)`: record the flag if truthy, then move to the
target node of the choice. -/
def GameState.onChoiceSelected (s : GameState) (choice : Choice) :
    Except JsError GameState :=
  let s1 := if jsTruthy choice.flag then s.addFlag choice.flag else s
  s1.moveToNode choice.next

/-- The choice-button wiring of `displayChoice`: a button exists exactly for
each index `i < node.choices.length`, and clicking button `i` invokes
`onChoiceSelected(node.choices[i])`. An index with no button produces no
event at all, hence no state change and no error. -/
def GameState.clickChoiceButton (s : GameState) (node : Node) (i : Nat) :
    Except JsError GameState :=
  match node.choices.get? i with
  | some c => s.onChoiceSelected c
  | none => .ok s

/-- Method `toggleAuto()`: flip `autoMode`; turning it on force-clears `skipMode`. -/
def GameState.toggleAuto (s : GameState) : GameState :=
  let s1 := { s with autoMode := !s.autoMode }
  if s1.autoMode then { s1 with skipMode := false } else s1

/-- Method `toggleSkip()`: flip `skipMode`; turning it on force-clears `autoMode`. -/
def GameState.toggleSkip (s : GameState) : GameState :=
  let s1 := { s with skipMode := !s.skipMode }
  if s1.skipMode then { s1 with autoMode := false } else s1

/-- Successful `loadScenario()`: stores the fetched scenario document. -/
def GameState.setScenario (s : GameState) (sc : Scenario) : GameState :=
  { s with scenario := some sc }

/-- Method `loadGame(slotKey)` on an occupied slot: `fromJSON` then redisplay. -/
def GameState.loadGame (s : GameState) (data : SaveData) :
    Except JsError GameState :=
  (s.fromJSON data).displayCurrentNode

/-- Method `returnToTitle()` (confirmed): a fresh `GameState` keeping the loaded
scenario. -/
def GameState.returnToTitle (s : GameState) : GameState :=
  { initGameState with scenario := s.scenario }

/-- States the running program can actually be in: the constructor state,
closed under the event handlers of the engine (scenario load, start button,
text-box click, choice click, the auto/skip timer callback that re-invokes
`moveToNode`, the mode toggles, save-slot load, and title return). Only
successful (`Except.ok`) transitions produce a next state. -/
inductive Reachable : GameState → Prop where
  | init : Reachable initGameState
  | load {s : GameState} (sc : Scenario) :
      Reachable s → Reachable (s.setScenario sc)
  | start {s s' : GameState} :
      Reachable s → s.startGame = .ok s' → Reachable s'
  | click {s s' : GameState} :
      Reachable s → s.onTextBoxClick = .ok s' → Reachable s'
  | choose {s s' : GameState} (c : Choice) :
      Reachable s → s.onChoiceSelected c = .ok s' → Reachable s'
  | timer {s s' : GameState} (nodeId : Option String) :
      Reachable s → s.moveToNode nodeId = .ok s' → Reachable s'
  | tAuto {s : GameState} : Reachable s → Reachable s.toggleAuto
  | tSkip {s : GameState} : Reachable s → Reachable s.toggleSkip
  | loadSave {s s' : GameState} (d : SaveData) :
      Reachable s → s.loadGame d = .ok s' → Reachable s'
  | title {s : GameState} : Reachable s → Reachable s.returnToTitle

/-- Modelled from the spec: the bounded back-navigation history of the
richer engine variant is not part of game-engine.js (only the auto/skip
variant is in the repository). Per the spec, `history` is a bounded ordered
sequence with a maximum of 50 entries, and pushing onto a full history
drops the oldest entries first. -/
def maxHistorySize : Nat := 50

/-- Modelled from the spec: pushing a node id onto the back-navigation
history appends it and, when the bound is exceeded, evicts the oldest
entries until the length is back at the maximum. -/
def pushHistory (nodeId : String) (h : List String) : List String :=
  let h1 := h ++ [nodeId]
  if h1.length > maxHistorySize then h1.drop (h1.length - maxHistorySize)
  else h1

/- Concrete test fixture: the scenario of spec section 8 —
A(story, next=B), B(choice, [{next:C, flag:"x"}, {next:D}]), C, D. -/

def nodeA : Node :=
  { type := "story", speaker := some "n", text := some "a"
    background := none, character := none, next := some "B", choices := [] }

def nodeB : Node :=
  { type := "choice", speaker := some "n", text := some "q"
    background := none, character := none, next := none
    choices := [ { text := "c0", next := some "C", flag := some "x" },
                 { text := "c1", next := some "D", flag := none } ] }

def nodeC : Node :=
  { type := "story", speaker := some "n", text := some "c"
    background := none, character := none, next := none, choices := [] }

def nodeD : Node :=
  { type := "story", speaker := some "n", text := some "d"
    background := none, character := none, next := none, choices := [] }

def scABCD : Scenario :=
  { title := "t", startNode := "A"
    nodes := [("A", nodeA), ("B", nodeB), ("C", nodeC), ("D", nodeD)] }

/- Field-projection lemmas: which session fields each helper mutates. -/

@[simp]
theorem visitNode_flags (s : GameState) (id : String) :
    (s.visitNode id).flags = s.flags := by
  unfold GameState.visitNode; split <;> rfl

@[simp]
theorem visitNode_currentNodeId (s : GameState) (id : String) :
    (s.visitNode id).currentNodeId = s.currentNodeId := by
  unfold GameState.visitNode; split <;> rfl

@[simp]
theorem visitNode_autoMode (s : GameState) (id : String) :
    (s.visitNode id).autoMode = s.autoMode := by
  unfold GameState.visitNode; split <;> rfl

@[simp]
theorem visitNode_skipMode (s : GameState) (id : String) :
    (s.visitNode id).skipMode = s.skipMode := by
  unfold GameState.visitNode; split <;> rfl

@[simp]
theorem visitNode_scenario (s : GameState) (id : String) :
    (s.visitNode id).scenario = s.scenario := by
  unfold GameState.visitNode; split <;> rfl

@[simp]
theorem addFlag_currentNodeId (s : GameState) (o : Option String) :
    (s.addFlag o).currentNodeId = s.currentNodeId := by
  unfold GameState.addFlag; cases o with
  | none => rfl
  | some f => dsimp only; split <;> rfl

@[simp]
theorem addFlag_visitedNodes (s : GameState) (o : Option String) :
    (s.addFlag o).visitedNodes = s.visitedNodes := by
  unfold GameState.addFlag; cases o with
  | none => rfl
  | some f => dsimp only; split <;> rfl

@[simp]
theorem addFlag_autoMode (s : GameState) (o : Option String) :
    (s.addFlag o).autoMode = s.autoMode := by
  unfold GameState.addFlag; cases o with
  | none => rfl
  | some f => dsimp only; split <;> rfl

@[simp]
theorem addFlag_skipMode (s : GameState) (o : Option String) :
    (s.addFlag o).skipMode = s.skipMode := by
  unfold GameState.addFlag; cases o with
  | none => rfl
  | some f => dsimp only; split <;> rfl

@[simp]
theorem addFlag_scenario (s : GameState) (o : Option String) :
    (s.addFlag o).scenario = s.scenario := by
  unfold GameState.addFlag; cases o with
  | none => rfl
  | some f => dsimp only; split <;> rfl

@[simp]
theorem displayText_eq (s : GameState) (n : Node) : s.displayText n = s := rfl

@[simp]
theorem displayChoice_flags (s : GameState) (n : Node) :
    (s.displayChoice n).flags = s.flags := rfl

@[simp]
theorem displayChoice_currentNodeId (s : GameState) (n : Node) :
    (s.displayChoice n).currentNodeId = s.currentNodeId := rfl

@[simp]
theorem displayChoice_visitedNodes (s : GameState) (n : Node) :
    (s.displayChoice n).visitedNodes = s.visitedNodes := rfl

@[simp]
theorem displayChoice_autoMode (s : GameState) (n : Node) :
    (s.displayChoice n).autoMode = false := rfl

@[simp]
theorem displayChoice_skipMode (s : GameState) (n : Node) :
    (s.displayChoice n).skipMode = false := rfl

@[simp]
theorem displayChoice_scenario (s : GameState) (n : Node) :
    (s.displayChoice n).scenario = s.scenario := rfl

/-- A successful redisplay never changes the flag set. -/
theorem displayCurrentNode_flags {s s' : GameState}
    (h : s.displayCurrentNode = .ok s') : s'.flags = s.flags := by
  unfold GameState.displayCurrentNode at h
  split at h
  · simp at h
  · split at h
    · injection h with h; subst h; rfl
    · split at h
      · injection h with h; subst h; rfl
      · injection h with h; subst h
        split <;> simp

/-- A successful redisplay never changes the loaded scenario. -/
theorem displayCurrentNode_scenario {s s' : GameState}
    (h : s.displayCurrentNode = .ok s') : s'.scenario = s.scenario := by
  unfold GameState.displayCurrentNode at h
  split at h
  · simp at h
  · split at h
    · injection h with h; subst h; rfl
    · split at h
      · injection h with h; subst h; rfl
      · injection h with h; subst h
        split <;> simp

/-- A successful redisplay either leaves both advance modes as they were
(story/dialogue path) or clears both (choice path). -/
theorem displayCurrentNode_modes {s s' : GameState}
    (h : s.displayCurrentNode = .ok s') :
    (s'.autoMode = s.autoMode ∧ s'.skipMode = s.skipMode) ∨
    (s'.autoMode = false ∧ s'.skipMode = false) := by
  unfold GameState.displayCurrentNode at h
  split at h
  · simp at h
  · split at h
    · injection h with h; subst h; left; exact ⟨rfl, rfl⟩
    · split at h
      · injection h with h; subst h; left; exact ⟨rfl, rfl⟩
      · injection h with h; subst h
        split
        · right; simp
        · left; simp

/- Concrete states used by witnesses and counterexamples. -/

/-- Scenario loaded, game not yet started. -/
def sUnstarted : GameState := { initGameState with scenario := some scABCD }

/-- Session sitting on the choice node B. -/
def sAtB : GameState :=
  { initGameState with scenario := some scABCD, currentNodeId := some "B" }

/-- Session sitting on the terminal story node C (no `next`). -/
def sAtC : GameState :=
  { initGameState with scenario := some scABCD, currentNodeId := some "C" }

/-- C1 counterexample: `startGame()` does not clear previously accumulated
state. On a session that already holds flag "x", starting leaves the flag
in place, so the snapshot after `start()` does not have empty `flags`. -/
theorem c1_start_does_not_clear :
    (GameState.startGame
        { initGameState with scenario := some scABCD, flags := ["x"] }).map
      GameState.flags = Except.ok ["x"] ∧ (["x"] : List String) ≠ [] := by
  constructor
  · rfl
  · decide

/-- C1 (amended): on a fresh session (as produced by the `GameState`
constructor or title-return) with the scenario loaded, `startGame()` sets
`currentNodeId` to the graph's start node, marks it visited, and the
resulting state has empty `flags` and `visitedNodes = [startNode]` — the
clearing is done by session construction, not by `start()` itself. -/
theorem c1_start_fresh_snapshot (sc : Scenario) (node : Node)
    (h : sc.lookupNode sc.startNode = some node) :
    (GameState.startGame { initGameState with scenario := some sc }).map
      (fun s => (s.currentNodeId, s.flags, s.visitedNodes)) =
      Except.ok (some sc.startNode, [], [sc.startNode]) := by
  unfold GameState.startGame GameState.moveToNode GameState.displayCurrentNode
  simp only [initGameState, h]
  split <;>
    simp [GameState.visitNode, GameState.displayChoice, Except.map]

/-- C1 witness: the amended statement evaluated on the test graph of the spec. -/
theorem c1_start_fresh_snapshot_witness :
    (GameState.startGame { initGameState with scenario := some scABCD }).map
      (fun s => (s.currentNodeId, s.flags, s.visitedNodes)) =
      Except.ok (some scABCD.startNode, [], [scABCD.startNode]) :=
  c1_start_fresh_snapshot scABCD nodeA rfl

/-- C2 counterexample: clicking the text box while the current node is the
choice node B does not fail at all — it returns the state unchanged with no
error — so no `InvalidTransitionError` is raised (no such error class
exists in the source). -/
theorem c2_choice_click_no_error :
    GameState.onTextBoxClick sAtB = Except.ok sAtB := rfl

/-- C2 (amended): on a choice node the click-to-advance handler silently
ignores the click: the state is returned unchanged and no error of any
kind is raised; the choice can only be resolved through a choice button. -/
theorem c2_choice_click_ignored (s : GameState) (sc : Scenario) (id : String)
    (node : Node) (hsc : s.scenario = some sc)
    (hid : s.currentNodeId = some id) (hlk : sc.lookupNode id = some node)
    (hty : node.type = "choice") :
    s.onTextBoxClick = Except.ok s := by
  unfold GameState.onTextBoxClick
  simp only [hsc, hid, hlk, hty]
  simp

/-- C2 witness: the amended statement evaluated at the choice node B. -/
theorem c2_choice_click_ignored_witness :
    GameState.onTextBoxClick sAtB = Except.ok sAtB :=
  c2_choice_click_ignored sAtB scABCD "B" nodeB rfl rfl rfl rfl

/-- C3 counterexample: selecting index 5 on the two-entry choice node B
does not fail with any error — no button exists for that index, so nothing
happens — hence no `InvalidChoiceError` (no such error class exists in the
source). -/
theorem c3_out_of_range_no_error :
    GameState.clickChoiceButton sAtB nodeB 5 = Except.ok sAtB := rfl

/-- C3 (amended): for an index outside `[0, choices.length)` no choice
button exists, so selecting it is impossible: the session state is left
entirely unchanged and no error is raised. (The engine guards by
construction — `displayChoice` creates one button per valid index — rather
than by raising `InvalidChoiceError`.) -/
theorem c3_out_of_range_unchanged (s : GameState) (node : Node) (i : Nat)
    (h : node.choices.length ≤ i) :
    s.clickChoiceButton node i = Except.ok s := by
  unfold GameState.clickChoiceButton
  rw [List.get?_eq_none.mpr h]

/-- C3 witness: the amended statement evaluated at node B, index 5. -/
theorem c3_out_of_range_unchanged_witness :
    GameState.clickChoiceButton sAtB nodeB 5 = Except.ok sAtB :=
  c3_out_of_range_unchanged sAtB nodeB 5 (by decide)

/-- C4 counterexample: before `start()` (scenario loaded, `currentNodeId`
still null), redisplaying the current node — the `currentNode()`
analogue — does not fail at all: the undefined lookup is logged and the
state returned unchanged, so no `NotStartedError` is raised. -/
theorem c4_unstarted_display_no_error :
    GameState.displayCurrentNode sUnstarted = Except.ok sUnstarted := rfl

/-- C4 (amended): no `NotStartedError` exists in the source. Before
`start()`, the click-to-advance handler fails with a plain TypeError
(dereferencing the `undefined` node), while displaying the current node is
a silent no-op. -/
theorem c4_unstarted_behaviour (s : GameState) (sc : Scenario)
    (hsc : s.scenario = some sc) (hcur : s.currentNodeId = none) :
    s.onTextBoxClick = Except.error JsError.typeError ∧
    s.displayCurrentNode = Except.ok s := by
  constructor
  · unfold GameState.onTextBoxClick
    simp only [hsc, hcur]
  · unfold GameState.displayCurrentNode
    simp only [hsc, hcur]

/-- C4 witness: the amended statement evaluated on the unstarted session. -/
theorem c4_unstarted_behaviour_witness :
    GameState.onTextBoxClick sUnstarted = Except.error JsError.typeError ∧
    GameState.displayCurrentNode sUnstarted = Except.ok sUnstarted :=
  c4_unstarted_behaviour sUnstarted scABCD rfl rfl

/-- A successful `moveToNode` never changes the flag set. -/
theorem moveToNode_flags {s s' : GameState} {nid : Option String}
    (h : s.moveToNode nid = .ok s') : s'.flags = s.flags := by
  unfold GameState.moveToNode at h
  have e := displayCurrentNode_flags h
  exact e

/-- Adding a flag that is already present is the identity on the state. -/
theorem addFlag_mem (s : GameState) (f : String) (h : f ∈ s.flags) :
    s.addFlag (some f) = s := by
  unfold GameState.addFlag
  dsimp only
  rw [if_neg]
  simp [List.elem_iff, h]

/-- What `addFlag` does to the flag list for a non-empty flag. -/
theorem addFlag_flags_spec (s : GameState) (f : String) (hne : f ≠ "") :
    (s.addFlag (some f)).flags =
      if f ∈ s.flags then s.flags else s.flags ++ [f] := by
  unfold GameState.addFlag
  dsimp only
  by_cases hm : f ∈ s.flags
  · rw [if_neg, if_pos hm]
    simp [List.elem_iff, hm]
  · rw [if_pos, if_neg hm]
    simp [List.elem_iff, hm, hne]

/-- The flag list after `onChoiceSelected` with a non-empty flag. -/
theorem onChoiceSelected_flags {s r : GameState} {c : Choice} {f : String}
    (hf : c.flag = some f) (hne : f ≠ "")
    (h : s.onChoiceSelected c = .ok r) :
    r.flags = if f ∈ s.flags then s.flags else s.flags ++ [f] := by
  unfold GameState.onChoiceSelected at h
  rw [hf] at h
  simp only [jsTruthy] at h
  rw [if_pos (by simp [hne])] at h
  rw [moveToNode_flags h, addFlag_flags_spec s f hne]

/-- C5: flag addition is idempotent and session-local. On any two sessions
with duplicate-free flag lists, selecting a choice that carries the
non-empty flag `f` leaves the flags of each session containing `f` exactly once;
if `f` was already present the flag list is completely unchanged; and the
result lists stay duplicate-free (each flag at most once). The two sessions
are arbitrary and independent — no cross-session leakage is possible. -/
theorem c5_flag_add_idempotent (s1 s2 r1 r2 : GameState) (c : Choice)
    (f : String) (hf : c.flag = some f) (hne : f ≠ "")
    (hnd1 : s1.flags.Nodup) (hnd2 : s2.flags.Nodup) (hmem : f ∈ s1.flags)
    (h1 : s1.onChoiceSelected c = .ok r1)
    (h2 : s2.onChoiceSelected c = .ok r2) :
    r1.flags = s1.flags ∧ r1.flags.count f = 1 ∧ r2.flags.count f = 1 ∧
    r1.flags.Nodup ∧ r2.flags.Nodup := by
  have e1 := onChoiceSelected_flags hf hne h1
  have e2 := onChoiceSelected_flags hf hne h2
  rw [if_pos hmem] at e1
  refine ⟨e1, ?_, ?_, ?_, ?_⟩
  · rw [e1]; exact List.count_eq_one_of_mem hnd1 hmem
  · rw [e2]
    by_cases hm2 : f ∈ s2.flags
    · rw [if_pos hm2]; exact List.count_eq_one_of_mem hnd2 hm2
    · rw [if_neg hm2]
      simp [List.count_append, List.count_eq_zero.mpr hm2]
  · rw [e1]; exact hnd1
  · rw [e2]
    by_cases hm2 : f ∈ s2.flags
    · rw [if_pos hm2]; exact hnd2
    · rw [if_neg hm2]
      simp [List.nodup_append, hnd2, hm2]

/-- Session at node B that already carries the flag "x". -/
def sAtBx : GameState :=
  { initGameState with
    scenario := some scABCD
    currentNodeId := some "B"
    flags := ["x"] }

/-- The first choice of node B: `{ text: "c0", next: "C", flag: "x" }`. -/
def choice0 : Choice := { text := "c0", next := some "C", flag := some "x" }

/-- The second choice of node B: `{ text: "c1", next: "D" }` (no flag). -/
def choice1 : Choice := { text := "c1", next := some "D", flag := none }

/-- State after selecting choice 0 from node B. -/
def rAfterC : GameState :=
  { currentNodeId := some "C", flags := ["x"], visitedNodes := ["C"]
    autoMode := false, skipMode := false, scenario := some scABCD }

/-- State after selecting choice 1 from node B. -/
def rAfterD : GameState :=
  { currentNodeId := some "D", flags := [], visitedNodes := ["D"]
    autoMode := false, skipMode := false, scenario := some scABCD }

/-- C5 witness: two concrete sessions at node B — one already holding "x",
one not — both select choice 0; each ends with "x" exactly once. -/
theorem c5_flag_add_idempotent_witness :
    rAfterC.flags = sAtBx.flags ∧ rAfterC.flags.count "x" = 1 ∧
    rAfterC.flags.count "x" = 1 ∧ rAfterC.flags.Nodup ∧
    rAfterC.flags.Nodup :=
  c5_flag_add_idempotent sAtBx sAtB rAfterC rAfterC choice0 "x" rfl
    (by decide) (by decide) (by decide) (by decide) rfl rfl

/-- C6: on a started session whose current node is a story/dialogue node
with no `next`, clicking to advance is a no-op: the whole session state —
`currentNodeId` included — is returned unchanged and no error is raised.
(The back-navigation history does not exist in this engine variant, so it
is trivially unchanged as well.) -/
theorem c6_advance_no_next_noop (s : GameState) (sc : Scenario) (id : String)
    (node : Node) (hsc : s.scenario = some sc)
    (hid : s.currentNodeId = some id) (hlk : sc.lookupNode id = some node)
    (hty : node.type ≠ "choice") (hnext : node.next = none) :
    s.onTextBoxClick = Except.ok s := by
  unfold GameState.onTextBoxClick
  simp only [hsc, hid, hlk, hnext]
  simp [hty, jsTruthy]

/-- C6 witness: clicking on the terminal story node C changes nothing. -/
theorem c6_advance_no_next_noop_witness :
    GameState.onTextBoxClick sAtC = Except.ok sAtC :=
  c6_advance_no_next_noop sAtC scABCD "C" nodeC rfl rfl rfl (by decide) rfl

/-- C7: snapshot/restore round-trip. `toJSON` produces exactly
`{ currentNodeId, flags, visitedNodes, timestamp }`, and `fromJSON` of that
snapshot on any fresh session reproduces exactly the three persisted fields
of the snapshotted session. -/
theorem c7_snapshot_restore_roundtrip (s fresh : GameState) (t : String) :
    (fresh.fromJSON (s.toJSON t)).currentNodeId = s.currentNodeId ∧
    (fresh.fromJSON (s.toJSON t)).flags = s.flags ∧
    (fresh.fromJSON (s.toJSON t)).visitedNodes = s.visitedNodes ∧
    s.toJSON t =
      { currentNodeId := s.currentNodeId, flags := some s.flags
        visitedNodes := some s.visitedNodes, timestamp := t } :=
  ⟨rfl, rfl, rfl, rfl⟩

/-- C10: a falsy `flag` on the selected choice (absent or the empty string)
leaves the flag list completely unchanged, and `addFlag` can never
introduce an empty-string entry into a flag list that lacks one. -/
theorem c10_falsy_flag_ignored (s r : GameState) (c : Choice)
    (hf : c.flag = none ∨ c.flag = some "")
    (h : s.onChoiceSelected c = .ok r) :
    r.flags = s.flags ∧
    (∀ (t : GameState) (o : Option String),
      "" ∉ t.flags → "" ∉ (t.addFlag o).flags) := by
  constructor
  · unfold GameState.onChoiceSelected at h
    have hfalse : jsTruthy c.flag = false := by
      rcases hf with hf | hf <;> simp [hf, jsTruthy]
    rw [hfalse] at h
    simp only [if_neg] at h
    exact moveToNode_flags h
  · intro t o ht
    unfold GameState.addFlag
    cases o with
    | none => exact ht
    | some f =>
      dsimp only
      split
      · rename_i hcond
        simp only [Bool.and_eq_true, bne_iff_ne, ne_eq] at hcond
        simp [ht, Ne.symm hcond.1]
      · exact ht

/-- C10 witness: selecting the flagless choice 1 from node B leaves the
flag list unchanged. -/
theorem c10_falsy_flag_ignored_witness : rAfterD.flags = sAtB.flags :=
  (c10_falsy_flag_ignored sAtB rAfterD choice1 (Or.inl rfl) rfl).1

/- Mode-exclusivity machinery for the auto/skip invariant. -/

/-- Toggling auto mode never produces a state with both modes set. -/
theorem toggleAuto_modes (s : GameState) :
    (s.toggleAuto.autoMode && s.toggleAuto.skipMode) = false := by
  unfold GameState.toggleAuto
  cases ha : s.autoMode <;> simp [ha]

/-- Toggling skip mode never produces a state with both modes set. -/
theorem toggleSkip_modes (s : GameState) :
    (s.toggleSkip.autoMode && s.toggleSkip.skipMode) = false := by
  unfold GameState.toggleSkip
  cases hk : s.skipMode <;> simp [hk]

/-- From a state satisfying the exclusivity invariant, toggling auto mode
leaves skip mode off (either it was forced off, or it already was off). -/
theorem toggleAuto_skipMode_off (s : GameState)
    (h : (s.autoMode && s.skipMode) = false) :
    s.toggleAuto.skipMode = false := by
  unfold GameState.toggleAuto
  cases ha : s.autoMode
  · simp [ha]
  · simp [ha] at h ⊢
    exact h

/-- From a state satisfying the exclusivity invariant, toggling skip mode
leaves auto mode off. -/
theorem toggleSkip_autoMode_off (s : GameState)
    (h : (s.autoMode && s.skipMode) = false) :
    s.toggleSkip.autoMode = false := by
  unfold GameState.toggleSkip
  cases hk : s.skipMode
  · simp [hk]
  · simp [hk] at h ⊢
    exact h

/-- A successful redisplay preserves the mode-exclusivity invariant. -/
theorem displayCurrentNode_modes_inv {s s' : GameState}
    (h : s.displayCurrentNode = .ok s')
    (hi : (s.autoMode && s.skipMode) = false) :
    (s'.autoMode && s'.skipMode) = false := by
  rcases displayCurrentNode_modes h with ⟨h1, h2⟩ | ⟨h1, h2⟩ <;>
    simp [h1, h2, hi]

/-- A successful `moveToNode` preserves the mode-exclusivity invariant. -/
theorem moveToNode_modes_inv {s s' : GameState} {nid : Option String}
    (h : s.moveToNode nid = .ok s')
    (hi : (s.autoMode && s.skipMode) = false) :
    (s'.autoMode && s'.skipMode) = false := by
  unfold GameState.moveToNode at h
  exact displayCurrentNode_modes_inv h hi

/-- A successful `startGame` preserves the mode-exclusivity invariant. -/
theorem startGame_modes_inv {s s' : GameState}
    (h : s.startGame = .ok s')
    (hi : (s.autoMode && s.skipMode) = false) :
    (s'.autoMode && s'.skipMode) = false := by
  unfold GameState.startGame at h
  split at h
  · injection h with h; subst h; exact hi
  · exact moveToNode_modes_inv h hi

/-- A successful text-box click preserves the mode-exclusivity invariant. -/
theorem onTextBoxClick_modes_inv {s s' : GameState}
    (h : s.onTextBoxClick = .ok s')
    (hi : (s.autoMode && s.skipMode) = false) :
    (s'.autoMode && s'.skipMode) = false := by
  unfold GameState.onTextBoxClick at h
  split at h
  · simp at h
  · split at h
    · simp at h
    · split at h
      · simp at h
      · split at h
        · injection h with h; subst h; exact hi
        · split at h
          · exact moveToNode_modes_inv h hi
          · injection h with h; subst h; exact hi

/-- A successful choice selection preserves the mode-exclusivity
invariant. -/
theorem onChoiceSelected_modes_inv {s s' : GameState} {c : Choice}
    (h : s.onChoiceSelected c = .ok s')
    (hi : (s.autoMode && s.skipMode) = false) :
    (s'.autoMode && s'.skipMode) = false := by
  unfold GameState.onChoiceSelected at h
  dsimp only at h
  split at h
  · refine moveToNode_modes_inv h ?_
    simpa using hi
  · exact moveToNode_modes_inv h hi

/-- A successful save-slot load preserves the mode-exclusivity invariant
(`fromJSON` never touches the modes). -/
theorem loadGame_modes_inv {s s' : GameState} {d : SaveData}
    (h : s.loadGame d = .ok s')
    (hi : (s.autoMode && s.skipMode) = false) :
    (s'.autoMode && s'.skipMode) = false := by
  unfold GameState.loadGame at h
  refine displayCurrentNode_modes_inv h ?_
  simpa [GameState.fromJSON] using hi

/-- Every state the running engine can reach keeps auto and skip mode
mutually exclusive. -/
theorem reachable_modes_exclusive {s : GameState} (h : Reachable s) :
    (s.autoMode && s.skipMode) = false := by
  induction h with
  | init => rfl
  | load sc _ ih => simpa [GameState.setScenario] using ih
  | start _ hs ih => exact startGame_modes_inv hs ih
  | click _ hs ih => exact onTextBoxClick_modes_inv hs ih
  | choose c _ hs ih => exact onChoiceSelected_modes_inv hs ih
  | timer nid _ hs ih => exact moveToNode_modes_inv hs ih
  | tAuto _ ih => exact toggleAuto_modes _
  | tSkip _ ih => exact toggleSkip_modes _
  | loadSave d _ hs ih => exact loadGame_modes_inv hs ih
  | title _ ih => rfl

/-- C8: in every reachable session state auto and skip mode are never both
on; from such a state, toggling either mode leaves the other off; and
entering (moving to) a node of kind `choice` unconditionally switches both
modes off. -/
theorem c8_auto_skip_exclusive (s : GameState) (h : Reachable s) :
    (s.autoMode && s.skipMode) = false ∧
    s.toggleAuto.skipMode = false ∧ s.toggleSkip.autoMode = false ∧
    (∀ (t t' : GameState) (sc : Scenario) (id : String) (node : Node),
      t.scenario = some sc → sc.lookupNode id = some node →
      node.type = "choice" → t.moveToNode (some id) = Except.ok t' →
      t'.autoMode = false ∧ t'.skipMode = false) := by
  refine ⟨reachable_modes_exclusive h,
    toggleAuto_skipMode_off _ (reachable_modes_exclusive h),
    toggleSkip_autoMode_off _ (reachable_modes_exclusive h), ?_⟩
  intro t t' sc id node hsc hlk hty hmv
  unfold GameState.moveToNode GameState.displayCurrentNode at hmv
  simp only [hsc, hlk, hty] at hmv
  simp only [beq_self_eq_true, if_true] at hmv
  injection hmv with hmv
  subst hmv
  simp

/-- C8 witness: the invariant holds at the constructor state. -/
theorem c8_auto_skip_exclusive_witness :
    (initGameState.autoMode && initGameState.skipMode) = false :=
  (c8_auto_skip_exclusive initGameState Reachable.init).1

/-- One spec-modelled history push never grows past the bound. -/
theorem pushHistory_length_le (x : String) (h : List String)
    (hb : h.length ≤ maxHistorySize) :
    (pushHistory x h).length ≤ maxHistorySize := by
  unfold pushHistory
  dsimp only
  split <;> rename_i hc <;>
    simp only [List.length_drop, List.length_append, List.length_singleton,
      gt_iff_lt, not_lt] at hc ⊢ <;>
    omega

/-- C9 (spec-modelled): starting from any history within the bound (the
session starts with an empty one), any number of pushes leaves the history
length at most 50, and a push onto a full history evicts exactly the
oldest entry before appending the new one (FIFO eviction). -/
theorem c9_history_bounded (pushes : List String) (h0 : List String)
    (hb : h0.length ≤ maxHistorySize) :
    (pushes.foldl (fun h x => pushHistory x h) h0).length ≤ maxHistorySize ∧
    (∀ (x : String) (h : List String), h.length = maxHistorySize →
      pushHistory x h = h.drop 1 ++ [x]) := by
  constructor
  · induction pushes generalizing h0 with
    | nil => simpa using hb
    | cons y ys ih =>
      simp only [List.foldl_cons]
      exact ih _ (pushHistory_length_le y h0 hb)
  · intro x h hlen
    unfold pushHistory
    dsimp only
    rw [if_pos]
    · have h1 : (h ++ [x]).length - maxHistorySize = 1 := by
        simp [List.length_append, hlen]
      rw [h1, List.drop_append_of_le_length]
      rw [hlen]
      decide
    · simp only [List.length_append, List.length_singleton, gt_iff_lt, hlen]
      omega

/-- C9 witness: one push onto the empty history stays within the bound. -/
theorem c9_history_bounded_witness :
    ((["A"] : List String).foldl (fun h x => pushHistory x h) []).length ≤
      maxHistorySize :=
  (c9_history_bounded ["A"] [] (by decide)).1

end NovelTree
